import Mathlib

/-!
Shallow embedding of the TPM structure utility module (`src/utils/mod.rs`) of
the `tss-esapi` crate: builders and parsers for TPM 2.0 structures
(`TPM2B_PUBLIC`, `TPMT_SIGNATURE`, `TPMS_CONTEXT`, `TPML_PCR_SELECTION`) and
the associated scheme/selection/session wrapper types.

Machine integers (`u8`, `u16`, `u32`, `u64`) are embedded as `Nat`; every
operation performed on them by the embedded code (comparison, bitwise or,
shifting, byte splitting) never overflows their width on the inputs the
code produces, so no explicit modulus is needed.  Fixed-size C arrays are
embedded as `List Nat`.  C unions are embedded as inductive sum types whose
constructors are the layout-distinct members; reading a union member that
was written through another member of identical layout (which the source
does, e.g. reading `rsassa` after writing `rsapss`) is embedded by sharing
one constructor for the common layout.  Fallible conversions return
`Except WrapperErrorKind`.
-/

namespace TssEsapi

/-- The wrapper error kinds of `response_code::WrapperErrorKind` used by the
utility module. -/
inductive WrapperErrorKind where
  | ParamsMissing
  | InconsistentParams
  | UnsupportedParam
  | WrongParamSize
  | InvalidParam
  deriving DecidableEq, Repr

/-- `Result<T>` of the crate: either a value or a wrapper error. -/
abbrev TssResult (α : Type) := Except WrapperErrorKind α

/-! TPM 2.0 algorithm identifier constants (`crate::constants`, values fixed
by the TPM 2.0 Structures specification). -/

def TPM2_ALG_RSA : Nat := 0x0001
def TPM2_ALG_SHA1 : Nat := 0x0004
def TPM2_ALG_AES : Nat := 0x0006
def TPM2_ALG_KEYEDHASH : Nat := 0x0008
def TPM2_ALG_XOR : Nat := 0x000A
def TPM2_ALG_SHA256 : Nat := 0x000B
def TPM2_ALG_SHA384 : Nat := 0x000C
def TPM2_ALG_SHA512 : Nat := 0x000D
def TPM2_ALG_NULL : Nat := 0x0010
def TPM2_ALG_SM3_256 : Nat := 0x0012
def TPM2_ALG_SM4 : Nat := 0x0013
def TPM2_ALG_RSASSA : Nat := 0x0014
def TPM2_ALG_RSAES : Nat := 0x0015
def TPM2_ALG_RSAPSS : Nat := 0x0016
def TPM2_ALG_OAEP : Nat := 0x0017
def TPM2_ALG_ECDSA : Nat := 0x0018
def TPM2_ALG_ECDH : Nat := 0x0019
def TPM2_ALG_ECDAA : Nat := 0x001A
def TPM2_ALG_SM2 : Nat := 0x001B
def TPM2_ALG_ECSCHNORR : Nat := 0x001C
def TPM2_ALG_ECMQV : Nat := 0x001D
def TPM2_ALG_ECC : Nat := 0x0023
def TPM2_ALG_SYMCIPHER : Nat := 0x0025
def TPM2_ALG_CAMELLIA : Nat := 0x0026
def TPM2_ALG_CFB : Nat := 0x0043

/-- Modelled from the spec: the hash-algorithm enumeration of the external
`algorithm_specifiers` collaborator (its source file is not under `src/`);
the spec treats algorithm identifiers as opaque numeric tags with a defined
`try_from`/`into` conversion contract. -/
inductive HashingAlgorithm where
  | Sha1
  | Sha256
  | Sha384
  | Sha512
  | Sm3_256
  deriving DecidableEq, Repr

/-- Modelled from the spec: `u16::from(HashingAlgorithm)`, mapping each hash
algorithm to its TPM 2.0 algorithm identifier. -/
def HashingAlgorithm.toAlgId : HashingAlgorithm → Nat
  | .Sha1 => TPM2_ALG_SHA1
  | .Sha256 => TPM2_ALG_SHA256
  | .Sha384 => TPM2_ALG_SHA384
  | .Sha512 => TPM2_ALG_SHA512
  | .Sm3_256 => TPM2_ALG_SM3_256

/-- Modelled from the spec: `HashingAlgorithm::try_from(u16)`, the inverse
conversion, failing on an unrecognized identifier. -/
def HashingAlgorithm.fromAlgId (id : Nat) : TssResult HashingAlgorithm :=
  if id = TPM2_ALG_SHA1 then .ok .Sha1
  else if id = TPM2_ALG_SHA256 then .ok .Sha256
  else if id = TPM2_ALG_SHA384 then .ok .Sha384
  else if id = TPM2_ALG_SHA512 then .ok .Sha512
  else if id = TPM2_ALG_SM3_256 then .ok .Sm3_256
  else .error .InvalidParam

/-- Rust enum `AsymSchemeUnion` (representation of `TPMU_ASYM_SCHEME`). -/
inductive AsymSchemeUnion where
  | ECDH (h : HashingAlgorithm)
  | ECMQV (h : HashingAlgorithm)
  | RSASSA (h : HashingAlgorithm)
  | RSAPSS (h : HashingAlgorithm)
  | ECDSA (h : HashingAlgorithm)
  | ECDAA (h : HashingAlgorithm) (count : Nat)
  | SM2 (h : HashingAlgorithm)
  | ECSchnorr (h : HashingAlgorithm)
  | RSAES
  | RSAOAEP (h : HashingAlgorithm)
  | AnySig (h : Option HashingAlgorithm)
  deriving DecidableEq, Repr

namespace AsymSchemeUnion

/-- `AsymSchemeUnion::scheme_id`. -/
def scheme_id : AsymSchemeUnion → Nat
  | .ECDH _ => TPM2_ALG_ECDH
  | .ECMQV _ => TPM2_ALG_ECMQV
  | .RSASSA _ => TPM2_ALG_RSASSA
  | .RSAPSS _ => TPM2_ALG_RSAPSS
  | .ECDSA _ => TPM2_ALG_ECDSA
  | .ECDAA _ _ => TPM2_ALG_ECDAA
  | .SM2 _ => TPM2_ALG_SM2
  | .ECSchnorr _ => TPM2_ALG_ECSCHNORR
  | .RSAES => TPM2_ALG_RSAES
  | .RSAOAEP _ => TPM2_ALG_OAEP
  | .AnySig _ => TPM2_ALG_NULL

/-- `AsymSchemeUnion::is_signing`. -/
def is_signing : AsymSchemeUnion → Bool
  | .ECDH _ | .ECMQV _ | .RSAOAEP _ | .RSAES => false
  | .RSASSA _ | .RSAPSS _ | .ECDSA _ | .ECDAA _ _
  | .SM2 _ | .ECSchnorr _ | .AnySig _ => true

/-- `AsymSchemeUnion::is_decryption`. -/
def is_decryption : AsymSchemeUnion → Bool
  | .ECDH _ | .ECMQV _ | .RSAOAEP _ | .RSAES => true
  | .RSASSA _ | .RSAPSS _ | .ECDSA _ | .ECDAA _ _
  | .SM2 _ | .ECSchnorr _ | .AnySig _ => false

/-- `AsymSchemeUnion::is_rsa`. -/
def is_rsa : AsymSchemeUnion → Bool
  | .RSASSA _ | .RSAOAEP _ | .RSAPSS _ | .AnySig _ | .RSAES => true
  | .ECDH _ | .ECMQV _ | .ECDSA _ | .ECDAA _ _
  | .SM2 _ | .ECSchnorr _ => false

/-- `AsymSchemeUnion::is_ecc`. -/
def is_ecc : AsymSchemeUnion → Bool
  | .RSASSA _ | .RSAOAEP _ | .RSAPSS _ | .AnySig _ | .RSAES => false
  | .ECDH _ | .ECMQV _ | .ECDSA _ | .ECDAA _ _
  | .SM2 _ | .ECSchnorr _ => true

end AsymSchemeUnion

/-- Union `TPMU_ASYM_SCHEME`.  All hash-carrying members (`ecdh`, `ecmqv`,
`rsassa`, `rsapss`, `ecdsa`, `sm2`, `ecschnorr`, `oaep`, `anySig`) share the
layout `TPMS_SCHEME_HASH { hashAlg: u16 }` and are embedded by the single
constructor `schemeHash`; `ecdaa` has layout `TPMS_SCHEME_ECDAA` and `rsaes`
is the empty structure. -/
inductive TPMU_ASYM_SCHEME where
  | schemeHash (hashAlg : Nat)
  | schemeEcdaa (hashAlg : Nat) (count : Nat)
  | empty
  deriving DecidableEq, Repr

/-- `AsymSchemeUnion::get_details`. -/
def AsymSchemeUnion.get_details : AsymSchemeUnion → TPMU_ASYM_SCHEME
  | .ECDH hash_alg => .schemeHash hash_alg.toAlgId
  | .ECMQV hash_alg => .schemeHash hash_alg.toAlgId
  | .RSASSA hash_alg => .schemeHash hash_alg.toAlgId
  | .RSAPSS hash_alg => .schemeHash hash_alg.toAlgId
  | .ECDSA hash_alg => .schemeHash hash_alg.toAlgId
  | .ECDAA hash_alg count => .schemeEcdaa hash_alg.toAlgId count
  | .SM2 hash_alg => .schemeHash hash_alg.toAlgId
  | .ECSchnorr hash_alg => .schemeHash hash_alg.toAlgId
  | .RSAES => .empty
  | .RSAOAEP hash_alg => .schemeHash hash_alg.toAlgId
  | .AnySig hash_alg => .schemeHash ((hash_alg.map HashingAlgorithm.toAlgId).getD TPM2_ALG_NULL)

/-- `TPMT_RSA_SCHEME`. -/
structure TPMT_RSA_SCHEME where
  scheme : Nat
  details : TPMU_ASYM_SCHEME
  deriving DecidableEq, Repr

/-- `TPMT_ECC_SCHEME`. -/
structure TPMT_ECC_SCHEME where
  scheme : Nat
  details : TPMU_ASYM_SCHEME
  deriving DecidableEq, Repr

/-- `AsymSchemeUnion::get_rsa_scheme_struct`. -/
def AsymSchemeUnion.get_rsa_scheme_struct (s : AsymSchemeUnion) : TPMT_RSA_SCHEME :=
  ⟨s.scheme_id, s.get_details⟩

/-- `AsymSchemeUnion::get_ecc_scheme_struct`. -/
def AsymSchemeUnion.get_ecc_scheme_struct (s : AsymSchemeUnion) : TPMT_ECC_SCHEME :=
  ⟨s.scheme_id, s.get_details⟩

/-- `TPMT_SYM_DEF_OBJECT`.  The members of the unions `TPMU_SYM_KEY_BITS` and
`TPMU_SYM_MODE` are all single `u16` values, so both unions are embedded as
`Nat`. -/
structure TPMT_SYM_DEF_OBJECT where
  algorithm : Nat
  keyBits : Nat
  mode : Nat
  deriving DecidableEq, Repr

/-- The all-zero `Default::default()` value of `TPMT_SYM_DEF_OBJECT`. -/
def TPMT_SYM_DEF_OBJECT.defaultZero : TPMT_SYM_DEF_OBJECT := ⟨0, 0, 0⟩

/-- Modelled from the spec: the symmetric cipher specifier of the external
`algorithm_specifiers` collaborator (its source file is not under `src/`);
a cipher carries an algorithm identifier, key size and mode, and converts
into a `TPMT_SYM_DEF_OBJECT` carrying the same three fields. -/
structure Cipher where
  algorithm : Nat
  keyBits : Nat
  mode : Nat
  deriving DecidableEq, Repr

/-- Modelled from the spec: `TPMT_SYM_DEF_OBJECT::from(Cipher)`. -/
def Cipher.toSymDefObject (c : Cipher) : TPMT_SYM_DEF_OBJECT :=
  ⟨c.algorithm, c.keyBits, c.mode⟩

/-- A concrete cipher value (256-bit AES in CFB mode) used as test input. -/
def Cipher.aes256cfb : Cipher := ⟨TPM2_ALG_AES, 256, TPM2_ALG_CFB⟩

/-- Modelled from the spec: the elliptic-curve enumeration of the external
`algorithm_specifiers` collaborator; the source under `src/` names the two
Barreto-Naehrig curves `BnP256` and `BnP638` directly. -/
inductive EllipticCurve where
  | NistP192
  | NistP224
  | NistP256
  | NistP384
  | NistP521
  | BnP256
  | BnP638
  | Sm2P256
  deriving DecidableEq, Repr

/-- Modelled from the spec: `TPM2_ECC_CURVE::from(EllipticCurve)`, the TPM
2.0 curve-identifier constants. -/
def EllipticCurve.toCurveId : EllipticCurve → Nat
  | .NistP192 => 0x0001
  | .NistP224 => 0x0002
  | .NistP256 => 0x0003
  | .NistP384 => 0x0004
  | .NistP521 => 0x0005
  | .BnP256 => 0x0010
  | .BnP638 => 0x0011
  | .Sm2P256 => 0x0020

/-- `TPMS_RSA_PARMS`. -/
structure TPMS_RSA_PARMS where
  symmetric : TPMT_SYM_DEF_OBJECT
  scheme : TPMT_RSA_SCHEME
  keyBits : Nat
  exponent : Nat
  deriving DecidableEq, Repr

/-- `TPMT_KDF_SCHEME`.  The members of `TPMU_KDF_SCHEME` are all
`TPMS_SCHEME_HASH { hashAlg: u16 }`, so the details union is embedded as
`Nat`. -/
structure TPMT_KDF_SCHEME where
  scheme : Nat
  details : Nat
  deriving DecidableEq, Repr

/-- `TPMS_ECC_PARMS`. -/
structure TPMS_ECC_PARMS where
  symmetric : TPMT_SYM_DEF_OBJECT
  scheme : TPMT_ECC_SCHEME
  curveID : Nat
  kdf : TPMT_KDF_SCHEME
  deriving DecidableEq, Repr

/-- Builder `TpmsRsaParmsBuilder`. -/
structure TpmsRsaParmsBuilder where
  symmetric : Option TPMT_SYM_DEF_OBJECT
  scheme : Option AsymSchemeUnion
  key_bits : Nat
  exponent : Nat
  for_signing : Bool
  for_decryption : Bool
  restricted : Bool
  deriving DecidableEq, Repr

namespace TpmsRsaParmsBuilder

/-- `TpmsRsaParmsBuilder::new_restricted_decryption_key`. -/
def new_restricted_decryption_key (symmetric : TPMT_SYM_DEF_OBJECT)
    (key_bits : Nat) (exponent : Nat) : TpmsRsaParmsBuilder :=
  ⟨some symmetric, some (.AnySig none), key_bits, exponent, false, true, true⟩

/-- `TpmsRsaParmsBuilder::new_unrestricted_signing_key`. -/
def new_unrestricted_signing_key (scheme : AsymSchemeUnion)
    (key_bits : Nat) (exponent : Nat) : TpmsRsaParmsBuilder :=
  ⟨none, some scheme, key_bits, exponent, true, false, false⟩

/-- `TpmsRsaParmsBuilder::build`. -/
def build (b : TpmsRsaParmsBuilder) : TssResult TPMS_RSA_PARMS :=
  if b.restricted && b.for_decryption then
    if b.symmetric.isNone then .error .ParamsMissing
    else buildAfterSymCheck b
  else if b.symmetric.isSome then .error .InconsistentParams
  else buildAfterSymCheck b
where
  buildAfterSymCheck (b : TpmsRsaParmsBuilder) : TssResult TPMS_RSA_PARMS :=
    let symmetric := b.symmetric.getD { TPMT_SYM_DEF_OBJECT.defaultZero with algorithm := TPM2_ALG_NULL }
    match b.scheme with
    | none => .error .ParamsMissing
    | some schemeUnion =>
      let scheme := schemeUnion.get_rsa_scheme_struct
      if b.restricted then
        if b.for_signing && scheme.scheme ≠ TPM2_ALG_RSAPSS && scheme.scheme ≠ TPM2_ALG_RSASSA then
          .error .InconsistentParams
        else if b.for_decryption && scheme.scheme ≠ TPM2_ALG_NULL then
          .error .InconsistentParams
        else
          .ok ⟨symmetric, scheme, b.key_bits, b.exponent⟩
      else
        if b.for_decryption && b.for_signing && scheme.scheme ≠ TPM2_ALG_NULL then
          .error .InconsistentParams
        else if b.for_signing && scheme.scheme ≠ TPM2_ALG_RSAPSS &&
            scheme.scheme ≠ TPM2_ALG_RSASSA && scheme.scheme ≠ TPM2_ALG_NULL then
          .error .InconsistentParams
        else if b.for_decryption && scheme.scheme ≠ TPM2_ALG_RSAES &&
            scheme.scheme ≠ TPM2_ALG_OAEP && scheme.scheme ≠ TPM2_ALG_NULL then
          .error .InconsistentParams
        else
          .ok ⟨symmetric, scheme, b.key_bits, b.exponent⟩

end TpmsRsaParmsBuilder

/-- Builder `TpmsEccParmsBuilder`. -/
structure TpmsEccParmsBuilder where
  symmetric : Option Cipher
  scheme : AsymSchemeUnion
  curve : EllipticCurve
  for_signing : Bool
  for_decryption : Bool
  restricted : Bool
  deriving DecidableEq, Repr

namespace TpmsEccParmsBuilder

/-- `TpmsEccParmsBuilder::new_restricted_decryption_key`. -/
def new_restricted_decryption_key (symmetric : Cipher) (curve : EllipticCurve) :
    TpmsEccParmsBuilder :=
  ⟨some symmetric, .AnySig none, curve, false, true, true⟩

/-- `TpmsEccParmsBuilder::new_unrestricted_signing_key`. -/
def new_unrestricted_signing_key (scheme : AsymSchemeUnion) (curve : EllipticCurve) :
    TpmsEccParmsBuilder :=
  ⟨none, scheme, curve, true, false, false⟩

/-- `TpmsEccParmsBuilder::build`. -/
def build (b : TpmsEccParmsBuilder) : TssResult TPMS_ECC_PARMS :=
  if b.restricted && b.for_decryption then
    if b.symmetric.isNone then .error .ParamsMissing
    else buildAfterSymCheck b
  else if b.symmetric.isSome then .error .InconsistentParams
  else buildAfterSymCheck b
where
  buildAfterSymCheck (b : TpmsEccParmsBuilder) : TssResult TPMS_ECC_PARMS :=
    if b.for_decryption && b.for_signing then .error .InconsistentParams
    else
      let scheme := b.scheme.get_ecc_scheme_struct
      if b.for_signing && scheme.scheme ≠ TPM2_ALG_ECDSA && scheme.scheme ≠ TPM2_ALG_ECDAA &&
          scheme.scheme ≠ TPM2_ALG_SM2 && scheme.scheme ≠ TPM2_ALG_ECSCHNORR then
        .error .InconsistentParams
      else if b.for_decryption && scheme.scheme ≠ TPM2_ALG_SM2 && scheme.scheme ≠ TPM2_ALG_ECDH &&
          scheme.scheme ≠ TPM2_ALG_ECMQV && scheme.scheme ≠ TPM2_ALG_NULL then
        .error .InconsistentParams
      else if (b.curve = EllipticCurve.BnP256 || b.curve = EllipticCurve.BnP638) &&
          scheme.scheme ≠ TPM2_ALG_ECDAA then
        .error .InconsistentParams
      else
        let symmetric := match b.symmetric with
          | some symmetric => symmetric.toSymDefObject
          | none => { TPMT_SYM_DEF_OBJECT.defaultZero with algorithm := TPM2_ALG_NULL }
        .ok ⟨symmetric, scheme, b.curve.toCurveId, ⟨TPM2_ALG_NULL, 0⟩⟩

end TpmsEccParmsBuilder

/-- `TPM2B_PUBLIC_KEY_RSA`: declared size plus a fixed 512-byte buffer. -/
structure TPM2B_PUBLIC_KEY_RSA where
  size : Nat
  buffer : List Nat
  deriving DecidableEq, Repr

/-- `TPM2B_ECC_PARAMETER`: declared size plus a fixed 128-byte buffer. -/
structure TPM2B_ECC_PARAMETER where
  size : Nat
  buffer : List Nat
  deriving DecidableEq, Repr

/-- `TPMS_SIGNATURE_RSA`. -/
structure TPMS_SIGNATURE_RSA where
  hash : Nat
  sig : TPM2B_PUBLIC_KEY_RSA
  deriving DecidableEq, Repr

/-- `TPMS_SIGNATURE_ECDSA`. -/
structure TPMS_SIGNATURE_ECDSA where
  hash : Nat
  signatureR : TPM2B_ECC_PARAMETER
  signatureS : TPM2B_ECC_PARAMETER
  deriving DecidableEq, Repr

/-- Union `TPMU_SIGNATURE`.  The members `rsassa` and `rsapss` share the
layout `TPMS_SIGNATURE_RSA` and are embedded by the one constructor
`rsaSig` (the source itself reads the `rsassa` member after writing
`rsapss`); the ECDSA-shaped members are embedded by `ecdsaSig`. -/
inductive TPMU_SIGNATURE where
  | rsaSig (s : TPMS_SIGNATURE_RSA)
  | ecdsaSig (s : TPMS_SIGNATURE_ECDSA)
  deriving DecidableEq, Repr

/-- `TPMT_SIGNATURE`. -/
structure TPMT_SIGNATURE where
  sigAlg : Nat
  signature : TPMU_SIGNATURE
  deriving DecidableEq, Repr

/-- Rust enum `SignatureData`. -/
inductive SignatureData where
  | RsaSignature (sig : List Nat)
  | EcdsaSignature (r : List Nat) (s : List Nat)
  deriving DecidableEq, Repr

/-- Rust struct `Signature`. -/
structure Signature where
  scheme : AsymSchemeUnion
  signature : SignatureData
  deriving DecidableEq, Repr

/-- `Vec::truncate`: keep the first `len` elements; a `len` not below the
vector length leaves the vector unchanged. -/
def vecTruncate (v : List Nat) (len : Nat) : List Nat := v.take len

/-- The two-step idiom `let mut buffer = [0; N]; buffer[..len] =
signature[..len]`: the first `len` entries of `buffer` are overwritten with
the first `len` entries of `signature`. -/
def overwriteFirst (buffer signature : List Nat) (len : Nat) : List Nat :=
  signature.take len ++ buffer.drop len

/-- `Signature::try_from(TPMT_SIGNATURE)` (the `unsafe` parser).  Its
contract requires `sigAlg` to be consistent with the active union member;
a tag/member mismatch is undefined behavior in the source and is embedded
here as an `InconsistentParams` error (no claim exercises those inputs). -/
def Signature.try_from (tss_signature : TPMT_SIGNATURE) : TssResult Signature :=
  if tss_signature.sigAlg = TPM2_ALG_RSASSA then
    match tss_signature.signature with
    | .rsaSig payload =>
      match HashingAlgorithm.fromAlgId payload.hash with
      | .error e => .error e
      | .ok hash_alg =>
        let signature := payload.sig.buffer
        let buf_size := payload.sig.size
        if buf_size > signature.length then .error .InconsistentParams
        else .ok ⟨.RSASSA hash_alg, .RsaSignature (vecTruncate signature buf_size)⟩
    | _ => .error .InconsistentParams
  else if tss_signature.sigAlg = TPM2_ALG_RSAPSS then
    match tss_signature.signature with
    | .rsaSig payload =>
      match HashingAlgorithm.fromAlgId payload.hash with
      | .error e => .error e
      | .ok hash_alg =>
        let signature := payload.sig.buffer
        let buf_size := payload.sig.size
        if buf_size > signature.length then .error .InconsistentParams
        else .ok ⟨.RSAPSS hash_alg, .RsaSignature (vecTruncate signature buf_size)⟩
    | _ => .error .InconsistentParams
  else if tss_signature.sigAlg = TPM2_ALG_ECDSA then
    match tss_signature.signature with
    | .ecdsaSig payload =>
      match HashingAlgorithm.fromAlgId payload.hash with
      | .error e => .error e
      | .ok hash_alg =>
        let r_buf := payload.signatureR.buffer
        if payload.signatureR.size > r_buf.length then .error .InconsistentParams
        else
          let s_buf := payload.signatureS.buffer
          if payload.signatureS.size > s_buf.length then .error .InconsistentParams
          else .ok ⟨.ECDSA hash_alg,
            .EcdsaSignature (vecTruncate r_buf payload.signatureR.size) (vecTruncate s_buf payload.signatureS.size)⟩
    | _ => .error .InconsistentParams
  else if tss_signature.sigAlg = TPM2_ALG_SM2 ∨ tss_signature.sigAlg = TPM2_ALG_ECSCHNORR ∨
      tss_signature.sigAlg = TPM2_ALG_ECDAA then
    .error .UnsupportedParam
  else
    .error .InconsistentParams

/-- `TPMT_SIGNATURE::try_from(Signature)`. -/
def TPMT_SIGNATURE.try_from (sig : Signature) : TssResult TPMT_SIGNATURE :=
  if sig.scheme.is_decryption then .error .InconsistentParams
  else
    match sig.scheme with
    | .RSASSA hash_alg =>
      match sig.signature with
      | .RsaSignature signature =>
        let len := signature.length
        if len > 512 then .error .WrongParamSize
        else
          .ok ⟨TPM2_ALG_RSASSA,
            .rsaSig ⟨hash_alg.toAlgId, ⟨len, overwriteFirst (List.replicate 512 0) signature len⟩⟩⟩
      | .EcdsaSignature _ _ => .error .InconsistentParams
    | .RSAPSS hash_alg =>
      match sig.signature with
      | .RsaSignature signature =>
        let len := signature.length
        if len > 512 then .error .WrongParamSize
        else
          .ok ⟨TPM2_ALG_RSAPSS,
            .rsaSig ⟨hash_alg.toAlgId, ⟨len, overwriteFirst (List.replicate 512 0) signature len⟩⟩⟩
      | .EcdsaSignature _ _ => .error .InconsistentParams
    | .ECDSA hash_alg =>
      match sig.signature with
      | .EcdsaSignature r s =>
        let r_len := r.length
        if r_len > 128 then .error .WrongParamSize
        else
          let s_len := s.length
          if s_len > 128 then .error .WrongParamSize
          else
            .ok ⟨TPM2_ALG_ECDSA,
              .ecdsaSig ⟨hash_alg.toAlgId,
                ⟨r_len, overwriteFirst (List.replicate 128 0) r r_len⟩,
                ⟨s_len, overwriteFirst (List.replicate 128 0) s s_len⟩⟩⟩
      | .RsaSignature _ => .error .InconsistentParams
    | _ => .error .UnsupportedParam

/-- `TPM2B_CONTEXT_DATA`: a `u16` declared size plus a fixed 5188-byte
buffer. -/
structure TPM2B_CONTEXT_DATA where
  size : Nat
  buffer : List Nat
  deriving DecidableEq, Repr

/-- `TPMS_CONTEXT`. -/
structure TPMS_CONTEXT where
  sequence : Nat
  savedHandle : Nat
  hierarchy : Nat
  contextBlob : TPM2B_CONTEXT_DATA
  deriving DecidableEq, Repr

/-- Rust struct `TpmsContext`. -/
structure TpmsContext where
  sequence : Nat
  saved_handle : Nat
  hierarchy : Nat
  context_blob : List Nat
  deriving DecidableEq, Repr

/-- `usize::try_from` (`try_into` on an unsigned integer): succeeds exactly
when the value fits `usize`, whose maximum on the 64-bit target is
`2 ^ 64 - 1`. -/
def usizeTryFrom (v : Nat) : Option Nat :=
  if v < 2 ^ 64 then some v else none

/-- `TpmsContext::try_from(TPMS_CONTEXT)`: copy the fields, then truncate
the copied blob to the declared size, mapping a failed size conversion to
`WrongParamSize` through `or_else`. -/
def TpmsContext.try_from (tss2_context : TPMS_CONTEXT) : TssResult TpmsContext :=
  match usizeTryFrom tss2_context.contextBlob.size with
  | none => .error .WrongParamSize
  | some size =>
    .ok ⟨tss2_context.sequence, tss2_context.savedHandle, tss2_context.hierarchy,
      vecTruncate tss2_context.contextBlob.buffer size⟩

/-- `TPMS_CONTEXT::try_from(TpmsContext)`.  The zeroed buffer is filled by
the loop `for (i, val) in context_blob.into_iter().enumerate() { buffer[i] =
val }`, embedded as a fold performing one positional overwrite per element. -/
def TPMS_CONTEXT.try_from (context : TpmsContext) : TssResult TPMS_CONTEXT :=
  let buffer_size := context.context_blob.length
  if buffer_size > 5188 then .error .WrongParamSize
  else
    let buffer := context.context_blob.enum.foldl
      (fun acc p => acc.set p.1 p.2) (List.replicate 5188 0)
    .ok ⟨context.sequence, context.saved_handle, context.hierarchy, ⟨buffer_size, buffer⟩⟩

/-- Rust struct `TpmaSession` (`flags` and `mask` are `TPMA_SESSION`, a
`u8` flag word). -/
structure TpmaSession where
  flags : Nat
  mask : Nat
  deriving DecidableEq, Repr

/-- Builder `TpmaSessionBuilder`. -/
structure TpmaSessionBuilder where
  flags : Nat
  mask : Option Nat
  deriving DecidableEq, Repr

namespace TpmaSessionBuilder

/-- `TpmaSessionBuilder::new`. -/
def new : TpmaSessionBuilder := ⟨0, none⟩

/-- `TpmaSessionBuilder::with_flag`. -/
def with_flag (b : TpmaSessionBuilder) (flag : Nat) : TpmaSessionBuilder :=
  { b with flags := b.flags ||| flag }

/-- `TpmaSessionBuilder::with_mask`. -/
def with_mask (b : TpmaSessionBuilder) (mask : Nat) : TpmaSessionBuilder :=
  { b with mask := some ((b.mask.getD 0) ||| mask) }

/-- `TpmaSessionBuilder::build`. -/
def build (b : TpmaSessionBuilder) : TpmaSession :=
  ⟨b.flags, b.mask.getD b.flags⟩

end TpmaSessionBuilder

/-- One call in a fluent chain on a `TpmaSessionBuilder`. -/
inductive TpmaSessionBuilderCall where
  | withFlag (flag : Nat)
  | withMask (mask : Nat)
  deriving DecidableEq, Repr

/-- Apply one chained call to a `TpmaSessionBuilder`. -/
def TpmaSessionBuilder.applyCall (b : TpmaSessionBuilder) :
    TpmaSessionBuilderCall → TpmaSessionBuilder
  | .withFlag flag => b.with_flag flag
  | .withMask mask => b.with_mask mask

/-- The builder obtained from `TpmaSessionBuilder::new()` by a fluent chain
of calls. -/
def TpmaSessionBuilder.ofCalls (calls : List TpmaSessionBuilderCall) : TpmaSessionBuilder :=
  calls.foldl TpmaSessionBuilder.applyCall TpmaSessionBuilder.new

/-- Rust enum `PcrSlot`: the bit flag of each PCR slot. -/
inductive PcrSlot where
  | Slot0 | Slot1 | Slot2 | Slot3 | Slot4 | Slot5 | Slot6 | Slot7
  | Slot8 | Slot9 | Slot10 | Slot11 | Slot12 | Slot13 | Slot14 | Slot15
  | Slot16 | Slot17 | Slot18 | Slot19 | Slot20 | Slot21 | Slot22 | Slot23
  deriving DecidableEq, Repr

/-- The `u32` discriminant of each `PcrSlot` variant. -/
def PcrSlot.toBits : PcrSlot → Nat
  | .Slot0 => 0x00000001
  | .Slot1 => 0x00000002
  | .Slot2 => 0x00000004
  | .Slot3 => 0x00000008
  | .Slot4 => 0x00000010
  | .Slot5 => 0x00000020
  | .Slot6 => 0x00000040
  | .Slot7 => 0x00000080
  | .Slot8 => 0x00000100
  | .Slot9 => 0x00000200
  | .Slot10 => 0x00000400
  | .Slot11 => 0x00000800
  | .Slot12 => 0x00001000
  | .Slot13 => 0x00002000
  | .Slot14 => 0x00004000
  | .Slot15 => 0x00008000
  | .Slot16 => 0x00010000
  | .Slot17 => 0x00020000
  | .Slot18 => 0x00040000
  | .Slot19 => 0x00080000
  | .Slot20 => 0x00100000
  | .Slot21 => 0x00200000
  | .Slot22 => 0x00400000
  | .Slot23 => 0x00800000

/-- A `BitFlags<PcrSlot>` value is its `u32` bit word; the 24 slot flags
cover exactly the low 24 bits, so `BitFlags::<PcrSlot>::try_from(u32)`
succeeds precisely on words below `2 ^ 24`. -/
def pcrSlotBitsTryFrom (bits : Nat) : TssResult Nat :=
  if bits < 2 ^ 24 then .ok bits else .error .UnsupportedParam

/-- `u32::to_le_bytes`. -/
def u32ToLeBytes (v : Nat) : List Nat :=
  [v % 256, v / 2 ^ 8 % 256, v / 2 ^ 16 % 256, v / 2 ^ 24 % 256]

/-- `u32::from_le_bytes` over the fixed four-byte array. -/
def u32FromLeBytes (bytes : List Nat) : Nat :=
  match bytes with
  | [b0, b1, b2, b3] => b0 + 2 ^ 8 * b1 + 2 ^ 16 * b2 + 2 ^ 24 * b3
  | _ => 0

/-- Rust enum `PcrSelectSize`: possible values of `sizeofSelect`. -/
inductive PcrSelectSize where
  | OneByte
  | TwoBytes
  | ThreeBytes
  | FourBytes
  deriving DecidableEq, Repr

/-- `PcrSelectSize::to_u8` (the `ToPrimitive` discriminant). -/
def PcrSelectSize.to_u8 : PcrSelectSize → Nat
  | .OneByte => 1
  | .TwoBytes => 2
  | .ThreeBytes => 3
  | .FourBytes => 4

/-- `PcrSelectSize::from_u8` (the `FromPrimitive` conversion). -/
def PcrSelectSize.from_u8 : Nat → Option PcrSelectSize
  | 1 => some .OneByte
  | 2 => some .TwoBytes
  | 3 => some .ThreeBytes
  | 4 => some .FourBytes
  | _ => none

/-- `Default for PcrSelectSize`: three bytes. -/
def PcrSelectSize.default : PcrSelectSize := .ThreeBytes

/-- `TPMS_PCR_SELECTION`: hash identifier, `sizeofSelect` byte and the
four-byte `pcrSelect` bit-mask array. -/
structure TPMS_PCR_SELECTION where
  hash : Nat
  sizeofSelect : Nat
  pcrSelect : List Nat
  deriving DecidableEq, Repr

/-- The zeroed `TPMS_PCR_SELECTION` filling the default list structure. -/
def TPMS_PCR_SELECTION.zeroed : TPMS_PCR_SELECTION := ⟨0, 0, [0, 0, 0, 0]⟩

/-- `TPML_PCR_SELECTION`: declared count plus the fixed sixteen-entry
selection array. -/
structure TPML_PCR_SELECTION where
  count : Nat
  pcrSelections : List TPMS_PCR_SELECTION
  deriving DecidableEq, Repr

/-- Rust struct `PcrSelections`.  The `HashMap<HashingAlgorithm,
BitFlags<PcrSlot>>` is embedded as an association list with distinct keys;
list order stands for the map's (unspecified) iteration order, and a
`BitFlags` value is its `u32` bit word. -/
structure PcrSelections where
  size_of_select : PcrSelectSize
  items : List (HashingAlgorithm × Nat)
  deriving DecidableEq, Repr

/-- `HashMap::get_mut` followed by `|=` on a hit, `HashMap::insert` on a
miss: merge `bits` into the entry of `key`, appending a new entry when the
key is absent. -/
def assocMerge (items : List (HashingAlgorithm × Nat)) (key : HashingAlgorithm)
    (bits : Nat) : List (HashingAlgorithm × Nat) :=
  if (items.lookup key).isSome then
    items.map (fun kv => if kv.1 = key then (kv.1, kv.2 ||| bits) else kv)
  else
    items ++ [(key, bits)]

/-- `TPML_PCR_SELECTION::from(PcrSelections)`: the source starts from the
zeroed default list, writes one entry per map item at index `count`, and
increments `count`. -/
def PcrSelections.toTpml (pcr_selections : PcrSelections) : TPML_PCR_SELECTION :=
  pcr_selections.items.foldl
    (fun ret hv =>
      let entry : TPMS_PCR_SELECTION :=
        ⟨hv.1.toAlgId, pcr_selections.size_of_select.to_u8, u32ToLeBytes hv.2⟩
      ⟨ret.count + 1, ret.pcrSelections.set ret.count entry⟩)
    ⟨0, List.replicate 16 TPMS_PCR_SELECTION.zeroed⟩

/-- One iteration of the parsing loop of
`PcrSelections::try_from(TPML_PCR_SELECTION)`: state is the accumulated
items plus the selection size seen so far. -/
def pcrSelectionsParseStep (state : List (HashingAlgorithm × Nat) × Option PcrSelectSize)
    (selection : TPMS_PCR_SELECTION) :
    TssResult (List (HashingAlgorithm × Nat) × Option PcrSelectSize) :=
  match pcrSlotBitsTryFrom (u32FromLeBytes selection.pcrSelect) with
  | .error e => .error e
  | .ok parsed_pcr_slots =>
    match PcrSelectSize.from_u8 selection.sizeofSelect with
    | none => .error .InvalidParam
    | some parsed_size_of_select =>
      if parsed_size_of_select ≠ state.2.getD parsed_size_of_select then
        .error .UnsupportedParam
      else
        match HashingAlgorithm.fromAlgId selection.hash with
        | .error _ => .error .InvalidParam
        | .ok parsed_hash_algorithm =>
          .ok (assocMerge state.1 parsed_hash_algorithm parsed_pcr_slots,
            some parsed_size_of_select)

/-- `PcrSelections::try_from(TPML_PCR_SELECTION)`: iterate the first
`count` array entries, merging each parsed selection; an empty input falls
back to the default selection size. -/
def PcrSelections.try_from (tpml_pcr_selection : TPML_PCR_SELECTION) :
    TssResult PcrSelections :=
  match (tpml_pcr_selection.pcrSelections.take tpml_pcr_selection.count).foldlM
      pcrSelectionsParseStep ([], none) with
  | .error e => .error e
  | .ok state => .ok ⟨state.2.getD PcrSelectSize.default, state.1⟩

/-- Builder `PcrSelectionsBuilder`. -/
structure PcrSelectionsBuilder where
  size_of_select : Option PcrSelectSize
  items : List (HashingAlgorithm × Nat)
  deriving DecidableEq, Repr

namespace PcrSelectionsBuilder

/-- `PcrSelectionsBuilder::new`. -/
def new : PcrSelectionsBuilder := ⟨none, []⟩

/-- `PcrSelectionsBuilder::with_size_of_select`. -/
def with_size_of_select (b : PcrSelectionsBuilder) (size_of_select : PcrSelectSize) :
    PcrSelectionsBuilder :=
  { b with size_of_select := some size_of_select }

/-- `PcrSelectionsBuilder::with_selection`: collect the slice of slots into
a bit word and merge it into the map. -/
def with_selection (b : PcrSelectionsBuilder) (hash_algorithm : HashingAlgorithm)
    (pcr_slots : List PcrSlot) : PcrSelectionsBuilder :=
  let selected_pcr_slots := pcr_slots.foldl (fun acc s => acc ||| s.toBits) 0
  { b with items := assocMerge b.items hash_algorithm selected_pcr_slots }

/-- `PcrSelectionsBuilder::build`. -/
def build (b : PcrSelectionsBuilder) : PcrSelections :=
  ⟨b.size_of_select.getD PcrSelectSize.default, b.items⟩

end PcrSelectionsBuilder

/-- One call in a fluent chain on a `PcrSelectionsBuilder`. -/
inductive PcrSelectionsBuilderCall where
  | withSizeOfSelect (size : PcrSelectSize)
  | withSelection (hash_algorithm : HashingAlgorithm) (pcr_slots : List PcrSlot)
  deriving DecidableEq, Repr

/-- Apply one chained call to a `PcrSelectionsBuilder`. -/
def PcrSelectionsBuilder.applyCall (b : PcrSelectionsBuilder) :
    PcrSelectionsBuilderCall → PcrSelectionsBuilder
  | .withSizeOfSelect s => b.with_size_of_select s
  | .withSelection h slots => b.with_selection h slots

/-- The builder obtained from `PcrSelectionsBuilder::new()` by a fluent
chain of calls. -/
def PcrSelectionsBuilder.ofCalls (calls : List PcrSelectionsBuilderCall) :
    PcrSelectionsBuilder :=
  calls.foldl PcrSelectionsBuilder.applyCall PcrSelectionsBuilder.new

/-- `TPM2B_DIGEST`: declared size plus a fixed 64-byte buffer. -/
structure TPM2B_DIGEST where
  size : Nat
  buffer : List Nat
  deriving DecidableEq, Repr

/-- The all-zero `Default::default()` value of `TPM2B_DIGEST`. -/
def TPM2B_DIGEST.defaultZero : TPM2B_DIGEST := ⟨0, List.replicate 64 0⟩

/-- `TPMS_ECC_POINT`. -/
structure TPMS_ECC_POINT where
  x : TPM2B_ECC_PARAMETER
  y : TPM2B_ECC_PARAMETER
  deriving DecidableEq, Repr

/-- `TPMS_KEYEDHASH_PARMS`: a keyed-hash scheme whose union members carry a
single `u16` hash identifier, embedded as two numeric fields. -/
structure TPMS_KEYEDHASH_PARMS where
  scheme : Nat
  details : Nat
  deriving DecidableEq, Repr

/-- `TPMS_ASYM_PARMS`. -/
structure TPMS_ASYM_PARMS where
  symmetric : TPMT_SYM_DEF_OBJECT
  scheme : Nat
  details : TPMU_ASYM_SCHEME
  deriving DecidableEq, Repr

/-- Rust enum `PublicIdUnion` (representation of `TPMU_PUBLIC_ID`). -/
inductive PublicIdUnion where
  | KeyedHash (d : TPM2B_DIGEST)
  | Sym (d : TPM2B_DIGEST)
  | Rsa (k : TPM2B_PUBLIC_KEY_RSA)
  | Ecc (p : TPMS_ECC_POINT)
  deriving DecidableEq, Repr

/-- Union `TPMU_PUBLIC_ID`.  `keyedHash` and `sym` share the `TPM2B_DIGEST`
layout and are embedded by the constructor `digest`. -/
inductive TPMU_PUBLIC_ID where
  | digest (d : TPM2B_DIGEST)
  | rsa (k : TPM2B_PUBLIC_KEY_RSA)
  | ecc (p : TPMS_ECC_POINT)
  deriving DecidableEq, Repr

/-- The all-zero `Default::default()` value of the union `TPMU_PUBLIC_ID`,
represented through its largest member (`rsa`) zeroed. -/
def TPMU_PUBLIC_ID.defaultZero : TPMU_PUBLIC_ID := .rsa ⟨0, List.replicate 512 0⟩

/-- Rust enum `PublicParmsUnion` (representation of `TPMU_PUBLIC_PARMS`). -/
inductive PublicParmsUnion where
  | KeyedHashDetail (p : TPMS_KEYEDHASH_PARMS)
  | SymDetail (c : Cipher)
  | RsaDetail (p : TPMS_RSA_PARMS)
  | EccDetail (p : TPMS_ECC_PARMS)
  | AsymDetail (p : TPMS_ASYM_PARMS)
  deriving DecidableEq, Repr

/-- `PublicParmsUnion::object_type`. -/
def PublicParmsUnion.object_type : PublicParmsUnion → Nat
  | .AsymDetail _ => TPM2_ALG_NULL
  | .EccDetail _ => TPM2_ALG_ECC
  | .RsaDetail _ => TPM2_ALG_RSA
  | .SymDetail _ => TPM2_ALG_SYMCIPHER
  | .KeyedHashDetail _ => TPM2_ALG_KEYEDHASH

/-- Union `TPMU_PUBLIC_PARMS`. -/
inductive TPMU_PUBLIC_PARMS where
  | keyedHashDetail (p : TPMS_KEYEDHASH_PARMS)
  | symDetail (s : TPMT_SYM_DEF_OBJECT)
  | rsaDetail (p : TPMS_RSA_PARMS)
  | eccDetail (p : TPMS_ECC_PARMS)
  | asymDetail (p : TPMS_ASYM_PARMS)
  deriving DecidableEq, Repr

/-- `TPMT_PUBLIC`. -/
structure TPMT_PUBLIC where
  type_ : Nat
  nameAlg : Nat
  objectAttributes : Nat
  authPolicy : TPM2B_DIGEST
  parameters : TPMU_PUBLIC_PARMS
  unique : TPMU_PUBLIC_ID
  deriving DecidableEq, Repr

/-- `TPM2B_PUBLIC`. -/
structure TPM2B_PUBLIC where
  size : Nat
  publicArea : TPMT_PUBLIC
  deriving DecidableEq, Repr

/-- The target's compile-time constant `std::mem::size_of::<TPMT_PUBLIC>()`
written into the `size` field of every built `TPM2B_PUBLIC`.  Its exact
value is an ABI layout fact that no claim depends on; 612 is used as the
fixed representative value. -/
def sizeOfTpmtPublic : Nat := 612

/-- Builder `Tpm2BPublicBuilder` (`object_attributes` is the `u32`
attribute word wrapped by `ObjectAttributes`). -/
structure Tpm2BPublicBuilder where
  type_ : Option Nat
  name_alg : Nat
  object_attributes : Nat
  auth_policy : TPM2B_DIGEST
  parameters : Option PublicParmsUnion
  unique : Option PublicIdUnion
  deriving DecidableEq, Repr

namespace Tpm2BPublicBuilder

/-- `Tpm2BPublicBuilder::new`. -/
def new : Tpm2BPublicBuilder :=
  ⟨none, TPM2_ALG_NULL, 0, TPM2B_DIGEST.defaultZero, none, none⟩

/-- `Tpm2BPublicBuilder::with_type`. -/
def with_type (b : Tpm2BPublicBuilder) (type_ : Nat) : Tpm2BPublicBuilder :=
  { b with type_ := some type_ }

/-- `Tpm2BPublicBuilder::with_name_alg`. -/
def with_name_alg (b : Tpm2BPublicBuilder) (name_alg : Nat) : Tpm2BPublicBuilder :=
  { b with name_alg := name_alg }

/-- `Tpm2BPublicBuilder::with_object_attributes`. -/
def with_object_attributes (b : Tpm2BPublicBuilder) (obj_attr : Nat) : Tpm2BPublicBuilder :=
  { b with object_attributes := obj_attr }

/-- `Tpm2BPublicBuilder::with_parms`. -/
def with_parms (b : Tpm2BPublicBuilder) (parameters : PublicParmsUnion) : Tpm2BPublicBuilder :=
  { b with parameters := some parameters }

/-- `Tpm2BPublicBuilder::with_unique`. -/
def with_unique (b : Tpm2BPublicBuilder) (unique : PublicIdUnion) : Tpm2BPublicBuilder :=
  { b with unique := some unique }

/-- `Tpm2BPublicBuilder::build`. -/
def build (b : Tpm2BPublicBuilder) : TssResult TPM2B_PUBLIC :=
  match b.type_ with
  | some t =>
    if t = TPM2_ALG_RSA then
      match b.parameters with
      | some (.RsaDetail parms) =>
        match b.unique with
        | some (.Rsa rsa_unique) =>
          .ok ⟨sizeOfTpmtPublic,
            ⟨t, b.name_alg, b.object_attributes, b.auth_policy, .rsaDetail parms, .rsa rsa_unique⟩⟩
        | none =>
          .ok ⟨sizeOfTpmtPublic,
            ⟨t, b.name_alg, b.object_attributes, b.auth_policy, .rsaDetail parms,
              TPMU_PUBLIC_ID.defaultZero⟩⟩
        | some _ => .error .InconsistentParams
      | none => .error .ParamsMissing
      | some _ => .error .InconsistentParams
    else if t = TPM2_ALG_ECC then
      match b.parameters with
      | some (.EccDetail parms) =>
        match b.unique with
        | some (.Ecc ecc_unique) =>
          .ok ⟨sizeOfTpmtPublic,
            ⟨t, b.name_alg, b.object_attributes, b.auth_policy, .eccDetail parms, .ecc ecc_unique⟩⟩
        | none =>
          .ok ⟨sizeOfTpmtPublic,
            ⟨t, b.name_alg, b.object_attributes, b.auth_policy, .eccDetail parms,
              TPMU_PUBLIC_ID.defaultZero⟩⟩
        | some _ => .error .InconsistentParams
      | none => .error .ParamsMissing
      | some _ => .error .InconsistentParams
    else .error .UnsupportedParam
  | none => .error .UnsupportedParam

end Tpm2BPublicBuilder

/-! ## Properties of the embedded code -/

/-- Claim C2, counterexample: the claim states that the `AnySig` variant
has both `is_rsa` and `is_ecc` false; on the code `is_rsa` returns true
for `AnySig`, with and without a hash algorithm. -/
theorem anySig_is_rsa_true :
    (AsymSchemeUnion.AnySig none).is_rsa = true ∧
    (AsymSchemeUnion.AnySig (some .Sha256)).is_rsa = true :=
  ⟨rfl, rfl⟩

/-- Claim C2 (amended): every `AsymSchemeUnion` variant has exactly one of
`is_signing` and `is_decryption` true; the `AnySig` variant (with any
optional hash) has `is_rsa` true and `is_ecc` false, so it classifies into
the RSA key-family category; `RSAES.is_decryption()` is true and
`RSAES.is_signing()` is false. -/
theorem asym_scheme_classification (s : AsymSchemeUnion) :
    (s.is_signing = true ↔ s.is_decryption = false) ∧
    (∀ h : Option HashingAlgorithm,
      (AsymSchemeUnion.AnySig h).is_rsa = true ∧ (AsymSchemeUnion.AnySig h).is_ecc = false) ∧
    AsymSchemeUnion.RSAES.is_decryption = true ∧
    AsymSchemeUnion.RSAES.is_signing = false := by
  refine ⟨?_, fun h => ⟨rfl, rfl⟩, rfl, rfl⟩
  cases s <;> simp [AsymSchemeUnion.is_signing, AsymSchemeUnion.is_decryption]

/-- Claim C4: for both the RSA and the ECC parameter builder, a restricted
decryption build with no symmetric cipher fails with `ParamsMissing`, and
a build that is not a restricted decryption build but was given a
symmetric cipher fails with `InconsistentParams`. -/
theorem symmetric_cipher_presence_rule :
    (∀ b : TpmsRsaParmsBuilder,
      (b.restricted = true → b.for_decryption = true → b.symmetric = none →
        b.build = .error .ParamsMissing) ∧
      (¬(b.restricted = true ∧ b.for_decryption = true) → b.symmetric.isSome = true →
        b.build = .error .InconsistentParams)) ∧
    (∀ b : TpmsEccParmsBuilder,
      (b.restricted = true → b.for_decryption = true → b.symmetric = none →
        b.build = .error .ParamsMissing) ∧
      (¬(b.restricted = true ∧ b.for_decryption = true) → b.symmetric.isSome = true →
        b.build = .error .InconsistentParams)) := by
  constructor
  · intro b
    constructor
    · intro hr hd hs
      simp [TpmsRsaParmsBuilder.build, hr, hd, hs]
    · intro hnot hs
      have hband : (b.restricted && b.for_decryption) = false := by
        cases hR : b.restricted <;> cases hD : b.for_decryption <;> simp_all
      simp [TpmsRsaParmsBuilder.build, hband, hs]
  · intro b
    constructor
    · intro hr hd hs
      simp [TpmsEccParmsBuilder.build, hr, hd, hs]
    · intro hnot hs
      have hband : (b.restricted && b.for_decryption) = false := by
        cases hR : b.restricted <;> cases hD : b.for_decryption <;> simp_all
      simp [TpmsEccParmsBuilder.build, hband, hs]

/-- Claim C4, witness: concrete restricted-decryption builds missing the
cipher, and concrete non-restricted-decryption builds carrying one. -/
theorem symmetric_cipher_presence_rule_witness :
    TpmsRsaParmsBuilder.build ⟨none, none, 0, 0, false, true, true⟩ = .error .ParamsMissing ∧
    TpmsRsaParmsBuilder.build ⟨some ⟨0, 0, 0⟩, none, 0, 0, false, false, false⟩ =
      .error .InconsistentParams ∧
    TpmsEccParmsBuilder.build ⟨none, .ECDSA .Sha256, .NistP256, false, true, true⟩ =
      .error .ParamsMissing ∧
    TpmsEccParmsBuilder.build
      ⟨some Cipher.aes256cfb, .ECDSA .Sha256, .NistP256, true, false, false⟩ =
      .error .InconsistentParams :=
  ⟨(symmetric_cipher_presence_rule.1 _).1 rfl rfl rfl,
   (symmetric_cipher_presence_rule.1 _).2 (by simp) rfl,
   (symmetric_cipher_presence_rule.2 _).1 rfl rfl rfl,
   (symmetric_cipher_presence_rule.2 _).2 (by simp) rfl⟩

/-- Claim C1, counterexample: the claim states that every restricted
decryption ECC build with a non-NULL scheme identifier fails with
`InconsistentParams`; on the code, a restricted decryption ECC build with
the SM2 scheme (identifier `0x001B`, not the NULL scheme) succeeds — the
RSA builder's NULL-scheme rule for restricted decryption keys has no
counterpart in the ECC builder. -/
theorem ecc_restricted_decryption_nonnull_scheme_accepted :
    TpmsEccParmsBuilder.build
      ⟨some Cipher.aes256cfb, .SM2 .Sha256, .NistP256, false, true, true⟩ =
      .ok ⟨Cipher.aes256cfb.toSymDefObject, ⟨TPM2_ALG_SM2, .schemeHash TPM2_ALG_SHA256⟩,
        EllipticCurve.NistP256.toCurveId, ⟨TPM2_ALG_NULL, 0⟩⟩ ∧
    (AsymSchemeUnion.SM2 .Sha256).scheme_id ≠ TPM2_ALG_NULL := by
  constructor
  · rfl
  · decide

/-- Claim C1 (amended): for every restricted decryption ECC build whose
symmetric cipher was supplied, the build fails with `InconsistentParams`
whenever the scheme identifier is outside the permitted decryption set
{SM2, ECDH, ECMQV, NULL}; a non-NULL member of that set is accepted, so
the NULL-only restricted-decryption rule applies to the RSA family only. -/
theorem ecc_restricted_decryption_scheme_rule (b : TpmsEccParmsBuilder)
    (hr : b.restricted = true) (hd : b.for_decryption = true)
    (hs : b.symmetric.isSome = true)
    (hid : b.scheme.scheme_id ≠ TPM2_ALG_SM2 ∧ b.scheme.scheme_id ≠ TPM2_ALG_ECDH ∧
      b.scheme.scheme_id ≠ TPM2_ALG_ECMQV ∧ b.scheme.scheme_id ≠ TPM2_ALG_NULL) :
    b.build = .error .InconsistentParams := by
  obtain ⟨h1, h2, h3, h4⟩ := hid
  have hnone : b.symmetric.isNone = false := by
    cases hsym : b.symmetric <;> simp_all
  simp only [TpmsEccParmsBuilder.build, hr, hd, Bool.and_self, if_true, hnone,
    Bool.false_eq_true, if_false]
  unfold TpmsEccParmsBuilder.build.buildAfterSymCheck
  cases hf : b.for_signing
  · simp [hd, hf, AsymSchemeUnion.get_ecc_scheme_struct, h1, h2, h3, h4]
  · simp [hd, hf]

/-- Claim C1 (amended), witness: a restricted decryption ECC build with the
ECDSA scheme (outside the permitted decryption set) is rejected. -/
theorem ecc_restricted_decryption_scheme_rule_witness :
    TpmsEccParmsBuilder.build
      ⟨some Cipher.aes256cfb, .ECDSA .Sha256, .NistP256, false, true, true⟩ =
      .error .InconsistentParams :=
  ecc_restricted_decryption_scheme_rule _ rfl rfl rfl (by decide)

/-- The arguments of the `with_mask` calls in a fluent chain. -/
def maskArgs (calls : List TpmaSessionBuilderCall) : List Nat :=
  calls.filterMap fun c => match c with
    | .withMask m => some m
    | .withFlag _ => none

lemma foldl_applyCall_mask (calls : List TpmaSessionBuilderCall) :
    ∀ b : TpmaSessionBuilder,
      (calls.foldl TpmaSessionBuilder.applyCall b).mask =
        if maskArgs calls = [] then b.mask
        else some ((maskArgs calls).foldl (· ||| ·) (b.mask.getD 0)) := by
  induction calls with
  | nil => intro b; simp [maskArgs]
  | cons c cs ih =>
    intro b
    cases c with
    | withFlag f =>
      rw [List.foldl_cons, ih]
      simp [maskArgs, TpmaSessionBuilder.applyCall, TpmaSessionBuilder.with_flag]
    | withMask m =>
      rw [List.foldl_cons, ih]
      have hargs : maskArgs (TpmaSessionBuilderCall.withMask m :: cs) = m :: maskArgs cs := rfl
      have happ : TpmaSessionBuilder.applyCall b (.withMask m) =
          ⟨b.flags, some (b.mask.getD 0 ||| m)⟩ := rfl
      rw [hargs, happ, if_neg (List.cons_ne_nil m (maskArgs cs))]
      by_cases hcs : maskArgs cs = []
      · rw [if_pos hcs, hcs, List.foldl_cons]
        rfl
      · rw [if_neg hcs, List.foldl_cons]
        rfl

/-- Claim C8: a fluent chain of `TpmaSessionBuilder` calls containing no
`with_mask` call builds a `TpmaSession` whose mask word equals its flags
word; a chain containing `with_mask` calls builds a mask equal to the
bitwise-or accumulation of their arguments. -/
theorem tpma_session_mask_default (calls : List TpmaSessionBuilderCall) :
    (maskArgs calls = [] →
      ((TpmaSessionBuilder.ofCalls calls).build).mask =
        ((TpmaSessionBuilder.ofCalls calls).build).flags) ∧
    (maskArgs calls ≠ [] →
      ((TpmaSessionBuilder.ofCalls calls).build).mask =
        (maskArgs calls).foldl (· ||| ·) 0) := by
  have hmask := foldl_applyCall_mask calls TpmaSessionBuilder.new
  constructor
  · intro h
    rw [if_pos h] at hmask
    unfold TpmaSessionBuilder.ofCalls TpmaSessionBuilder.build
    rw [hmask]
    rfl
  · intro h
    rw [if_neg h] at hmask
    unfold TpmaSessionBuilder.ofCalls TpmaSessionBuilder.build
    rw [hmask]
    rfl

/-- Claim C8, witness: a flag-only chain defaults the mask to the flags;
a chain with two `with_mask` calls accumulates their bitwise-or. -/
theorem tpma_session_mask_default_witness :
    ((TpmaSessionBuilder.ofCalls [.withFlag 1, .withFlag 2]).build).mask =
      ((TpmaSessionBuilder.ofCalls [.withFlag 1, .withFlag 2]).build).flags ∧
    ((TpmaSessionBuilder.ofCalls [.withFlag 1, .withMask 4, .withMask 2]).build).mask = 6 :=
  ⟨(tpma_session_mask_default _).1 (by decide),
   ((tpma_session_mask_default [.withFlag 1, .withMask 4, .withMask 2]).2
      (by decide)).trans (by decide)⟩

/-- Does a fluent-chain call set the selection size? -/
def PcrSelectionsBuilderCall.setsSize : PcrSelectionsBuilderCall → Bool
  | .withSizeOfSelect _ => true
  | .withSelection _ _ => false

lemma foldl_applyCall_size : ∀ (calls : List PcrSelectionsBuilderCall)
    (b : PcrSelectionsBuilder), (calls.all fun c => !c.setsSize) = true →
    (calls.foldl PcrSelectionsBuilder.applyCall b).size_of_select = b.size_of_select
  | [], _, _ => rfl
  | c :: cs, b, h => by
    simp only [List.all_cons, Bool.and_eq_true] at h
    cases c with
    | withSizeOfSelect s => simp [PcrSelectionsBuilderCall.setsSize] at h
    | withSelection ha slots =>
      rw [List.foldl_cons, foldl_applyCall_size cs _ h.2]
      rfl

/-- Claim C10: a fluent chain of `PcrSelectionsBuilder` calls containing no
`with_size_of_select` call, whatever selections it adds, builds a
`PcrSelections` whose selection size is the default `ThreeBytes`. -/
theorem pcr_selections_builder_default_size (calls : List PcrSelectionsBuilderCall)
    (h : (calls.all fun c => !c.setsSize) = true) :
    ((PcrSelectionsBuilder.ofCalls calls).build).size_of_select = PcrSelectSize.ThreeBytes := by
  have hsz := foldl_applyCall_size calls PcrSelectionsBuilder.new h
  unfold PcrSelectionsBuilder.ofCalls PcrSelectionsBuilder.build
  rw [hsz]
  rfl

/-- Claim C10, witness: a selection-only chain builds the default
three-byte selection size. -/
theorem pcr_selections_builder_default_size_witness :
    ((PcrSelectionsBuilder.ofCalls
        [.withSelection .Sha256 [.Slot0, .Slot3], .withSelection .Sha1 [.Slot7]]).build).size_of_select
      = PcrSelectSize.ThreeBytes :=
  pcr_selections_builder_default_size _ (by decide)

/-- Claim C9: building with object type RSA (resp. ECC), a matching
parameter block and no unique value succeeds, filling the unique union
field with the zeroed default value. -/
theorem tpm2b_public_builder_default_unique :
    (∀ (b : Tpm2BPublicBuilder) (p : TPMS_RSA_PARMS),
      b.type_ = some TPM2_ALG_RSA → b.parameters = some (.RsaDetail p) → b.unique = none →
      b.build = .ok ⟨sizeOfTpmtPublic,
        ⟨TPM2_ALG_RSA, b.name_alg, b.object_attributes, b.auth_policy, .rsaDetail p,
          TPMU_PUBLIC_ID.defaultZero⟩⟩) ∧
    (∀ (b : Tpm2BPublicBuilder) (p : TPMS_ECC_PARMS),
      b.type_ = some TPM2_ALG_ECC → b.parameters = some (.EccDetail p) → b.unique = none →
      b.build = .ok ⟨sizeOfTpmtPublic,
        ⟨TPM2_ALG_ECC, b.name_alg, b.object_attributes, b.auth_policy, .eccDetail p,
          TPMU_PUBLIC_ID.defaultZero⟩⟩) := by
  constructor
  · intro b p ht hp hu
    simp [Tpm2BPublicBuilder.build, ht, hp, hu]
  · intro b p ht hp hu
    simp [Tpm2BPublicBuilder.build, ht, hp, hu, TPM2_ALG_RSA, TPM2_ALG_ECC]

/-- Claim C9, witness: concrete RSA and ECC builds with no unique value. -/
theorem tpm2b_public_builder_default_unique_witness :
    ((Tpm2BPublicBuilder.new.with_type TPM2_ALG_RSA).with_parms
        (.RsaDetail ⟨TPMT_SYM_DEF_OBJECT.defaultZero, ⟨TPM2_ALG_NULL, .schemeHash 0⟩, 2048, 0⟩)).build
      = .ok ⟨sizeOfTpmtPublic, ⟨TPM2_ALG_RSA, TPM2_ALG_NULL, 0, TPM2B_DIGEST.defaultZero,
          .rsaDetail ⟨TPMT_SYM_DEF_OBJECT.defaultZero, ⟨TPM2_ALG_NULL, .schemeHash 0⟩, 2048, 0⟩,
          TPMU_PUBLIC_ID.defaultZero⟩⟩ ∧
    ((Tpm2BPublicBuilder.new.with_type TPM2_ALG_ECC).with_parms
        (.EccDetail ⟨TPMT_SYM_DEF_OBJECT.defaultZero, ⟨TPM2_ALG_NULL, .schemeHash 0⟩,
          EllipticCurve.NistP256.toCurveId, ⟨TPM2_ALG_NULL, 0⟩⟩)).build
      = .ok ⟨sizeOfTpmtPublic, ⟨TPM2_ALG_ECC, TPM2_ALG_NULL, 0, TPM2B_DIGEST.defaultZero,
          .eccDetail ⟨TPMT_SYM_DEF_OBJECT.defaultZero, ⟨TPM2_ALG_NULL, .schemeHash 0⟩,
            EllipticCurve.NistP256.toCurveId, ⟨TPM2_ALG_NULL, 0⟩⟩,
          TPMU_PUBLIC_ID.defaultZero⟩⟩ :=
  ⟨tpm2b_public_builder_default_unique.1 _ _ rfl rfl rfl,
   tpm2b_public_builder_default_unique.2 _ _ rfl rfl rfl⟩

/-- Claim C6: encoding the `PcrSelections` value with mapping
{Sha256 → {Slot0}} and any stored selection size into the raw
`TPML_PCR_SELECTION` list and decoding it back yields an equal mapping and
an equal selection size. -/
theorem pcr_selections_roundtrip (s : PcrSelectSize) :
    PcrSelections.try_from (PcrSelections.toTpml ⟨s, [(.Sha256, PcrSlot.Slot0.toBits)]⟩) =
      .ok ⟨s, [(.Sha256, PcrSlot.Slot0.toBits)]⟩ := by
  cases s <;> rfl

/-- Claim C3, counterexample: a raw context whose declared size (6000)
exceeds the capacity of the already-allocated 5188-byte blob buffer parses
successfully — `Vec::truncate` with an oversized length is a no-op and the
`u16` size conversion cannot fail — instead of failing with
`WrongParamSize` as the claim states. -/
theorem tpms_context_parse_oversized_size_accepted :
    TpmsContext.try_from ⟨1, 2, 3, ⟨6000, List.replicate 5188 0⟩⟩ =
      .ok ⟨1, 2, 3, List.replicate 5188 0⟩ ∧ 5188 < 6000 := by
  refine ⟨?_, by norm_num⟩
  simp only [TpmsContext.try_from, usizeTryFrom, vecTruncate]
  norm_num [List.take_replicate]

/-- Claim C3 (amended): parsing a raw `TPMS_CONTEXT` whose declared size
fits `u16` always succeeds: the sequence, saved handle and hierarchy are
copied unchanged and the blob is the copied buffer truncated to the
declared size (a no-op when the declared size is not smaller than the
buffer); the `WrongParamSize` path guards only the size-to-`usize`
conversion, which cannot fail for a 16-bit size. -/
theorem tpms_context_parse_total (tss : TPMS_CONTEXT)
    (h : tss.contextBlob.size < 2 ^ 16) :
    TpmsContext.try_from tss =
      .ok ⟨tss.sequence, tss.savedHandle, tss.hierarchy,
        tss.contextBlob.buffer.take tss.contextBlob.size⟩ := by
  unfold TpmsContext.try_from usizeTryFrom vecTruncate
  rw [if_pos (lt_trans h (by norm_num))]

/-- Claim C3 (amended), witness: a concrete full-size buffer truncated to
a declared size of two bytes. -/
theorem tpms_context_parse_total_witness :
    TpmsContext.try_from ⟨9, 8, 7, ⟨2, List.replicate 5188 5⟩⟩ = .ok ⟨9, 8, 7, [5, 5]⟩ := by
  have h := tpms_context_parse_total ⟨9, 8, 7, ⟨2, List.replicate 5188 5⟩⟩ (by norm_num)
  rw [h, List.take_replicate]
  rfl

/-- Writing a list into an initial buffer one positional overwrite at a
time (the `for (i, val) in v.enumerate { buffer[i] = val }` loop) replaces
the corresponding segment of the buffer. -/
lemma foldl_set_enumFrom (blob : List Nat) :
    ∀ (n : Nat) (init : List Nat), n + blob.length ≤ init.length →
      (blob.enumFrom n).foldl (fun acc p => acc.set p.1 p.2) init =
        init.take n ++ blob ++ init.drop (n + blob.length) := by
  induction blob with
  | nil =>
    intro n init h
    simp [List.take_append_drop]
  | cons a l ih =>
    intro n init h
    rw [List.enumFrom_cons, List.foldl_cons]
    have hlc : (a :: l).length = l.length + 1 := rfl
    rw [hlc] at h
    have hn : n < init.length := by omega
    have hih := ih (n + 1) (init.set n a) (by rw [List.length_set]; omega)
    rw [show init.set (n, a).1 (n, a).2 = init.set n a from rfl, hih]
    have hlt : (init.take n).length = n := by rw [List.length_take]; omega
    have htake : (init.set n a).take (n + 1) = init.take n ++ [a] := by
      rw [List.take_succ, List.set_take,
        List.set_eq_of_length_le (le_of_eq hlt),
        List.getElem?_set_self hn]
      rfl
    have hdrop : (init.set n a).drop (n + 1 + l.length) = init.drop (n + 1 + l.length) := by
      rw [List.drop_set, if_pos (by omega)]
    rw [htake, hdrop, hlc]
    have harith : n + 1 + l.length = n + (l.length + 1) := by omega
    rw [harith]
    simp [List.append_assoc]

/-- Claim C7: converting a `TpmsContext` into the raw structure succeeds
for every blob of at most 5188 bytes, zero-padding the fixed buffer and
recording the true length in the size field, and fails with
`WrongParamSize` for every longer blob. -/
theorem tpms_context_into_raw (ctx : TpmsContext) :
    (ctx.context_blob.length ≤ 5188 →
      TPMS_CONTEXT.try_from ctx = .ok ⟨ctx.sequence, ctx.saved_handle, ctx.hierarchy,
        ⟨ctx.context_blob.length,
          ctx.context_blob ++ List.replicate (5188 - ctx.context_blob.length) 0⟩⟩) ∧
    (5188 < ctx.context_blob.length →
      TPMS_CONTEXT.try_from ctx = .error .WrongParamSize) := by
  constructor
  · intro h
    unfold TPMS_CONTEXT.try_from
    rw [if_neg (by omega)]
    have hfold := foldl_set_enumFrom ctx.context_blob 0 (List.replicate 5188 0)
      (by rw [List.length_replicate]; omega)
    rw [List.enum_eq_enumFrom, hfold, List.take_zero, Nat.zero_add, List.drop_replicate,
      List.nil_append]
  · intro h
    unfold TPMS_CONTEXT.try_from
    rw [if_pos (by omega)]

set_option maxRecDepth 20000 in
/-- Claim C7, witness: a blob of exactly 5188 bytes converts successfully
and one of 5189 bytes fails with `WrongParamSize`. -/
theorem tpms_context_into_raw_witness :
    TPMS_CONTEXT.try_from ⟨4, 5, 6, List.replicate 5188 9⟩ =
      .ok ⟨4, 5, 6, ⟨5188, List.replicate 5188 9⟩⟩ ∧
    TPMS_CONTEXT.try_from ⟨4, 5, 6, List.replicate 5189 9⟩ = .error .WrongParamSize := by
  constructor
  · have h := (tpms_context_into_raw ⟨4, 5, 6, List.replicate 5188 9⟩).1
    rw [show (⟨4, 5, 6, List.replicate 5188 9⟩ : TpmsContext).context_blob =
        List.replicate 5188 9 from rfl] at h
    rw [List.length_replicate] at h
    have h2 := h (le_refl 5188)
    rw [Nat.sub_self, List.replicate_zero, List.append_nil] at h2
    exact h2
  · have h := (tpms_context_into_raw ⟨4, 5, 6, List.replicate 5189 9⟩).2
    rw [show (⟨4, 5, 6, List.replicate 5189 9⟩ : TpmsContext).context_blob =
        List.replicate 5189 9 from rfl] at h
    rw [List.length_replicate] at h
    exact h (by omega)

/-- Claim C5: converting a `Signature` with scheme RSASSA(Sha256) and a
32-byte RSA payload into the raw `TPMT_SIGNATURE` structure and parsing
the result back yields the same scheme and a byte-identical payload. -/
theorem rsassa_sha256_signature_roundtrip (b : List Nat) (h : b.length = 32) :
    (TPMT_SIGNATURE.try_from ⟨.RSASSA .Sha256, .RsaSignature b⟩).bind Signature.try_from =
      .ok ⟨.RSASSA .Sha256, .RsaSignature b⟩ := by
  have hb32 : b.take 32 = b := List.take_of_length_le (le_of_eq h)
  simp only [TPMT_SIGNATURE.try_from, AsymSchemeUnion.is_decryption, h]
  norm_num
  simp only [Except.bind, Signature.try_from, overwriteFirst, vecTruncate]
  norm_num [HashingAlgorithm.toAlgId, HashingAlgorithm.fromAlgId, TPM2_ALG_SHA1,
    TPM2_ALG_SHA256, TPM2_ALG_RSASSA, List.length_append, List.length_take,
    List.length_drop, List.length_replicate, h, List.take_append_eq_append_take,
    List.take_take, hb32]

/-- Claim C5, witness: the round trip at a concrete 32-byte payload. -/
theorem rsassa_sha256_signature_roundtrip_witness :
    (TPMT_SIGNATURE.try_from ⟨.RSASSA .Sha256, .RsaSignature (List.replicate 32 7)⟩).bind
        Signature.try_from = .ok ⟨.RSASSA .Sha256, .RsaSignature (List.replicate 32 7)⟩ :=
  rsassa_sha256_signature_roundtrip (List.replicate 32 7) (List.length_replicate 32 7)

end TssEsapi
